import Mathlib

/-!
Shallow embedding of the `third-law-ui` repository (a Next.js front end for a
PDF-scanning service) and proofs about its specification claims.

The embedded code comes from:
* `src/app/api/proxy/route.ts` — the upload relay (`POST /api/proxy`) and the
  local stub endpoint (`POST /api/pdf`);
* `src/app/api/documents/route.ts` — the documents listing relay
  (`GET /api/documents`) together with the client pages it is bundled with:
  the findings renderer (`FindingsList`), the upload widget (`UploadSection`),
  the simple total-count document table and the chunk-windowing document table
  (`ProcessedFilesTable`, including `fetchDocuments`, `handlePageChange`,
  `handleLastPage` and `handlePageSizeChange`).

Stateful React components are embedded as explicit state records plus pure
transition functions; every network side effect is returned as an explicit
list of issued requests.  JavaScript numbers are embedded as `Nat`/`Int`
(all arithmetic in these components stays far below 2^53, so no overflow
modelling is needed), and fallible steps are parametrised by an explicit
outcome value.
-/

set_option autoImplicit false

namespace ThirdLawUI

/-! ## Relay endpoints (`POST /api/proxy`, `GET /api/documents`) -/

/-- Body of a relay HTTP response: either the backend's parsed JSON payload
passed through verbatim (`α` is the abstract JSON type), or a locally
produced `{ error: msg }` object. -/
inductive RelayBody (α : Type) where
  | json (data : α)
  | error (msg : String)
  deriving DecidableEq

/-- An HTTP response produced by a relay route handler.  `NextResponse.json`
uses status 200 unless a status is given explicitly. -/
structure RelayResponse (α : Type) where
  status : Nat
  body : RelayBody α
  deriving DecidableEq

/-- Outcome of the relay's forwarded `fetch` + `response.json()` pair, as seen
by the `try` block: the backend responded with some HTTP status and a parsed
JSON body, or the `fetch` itself threw, or `.json()` threw.  The `detail`
string carries the JavaScript error detail of a failure, so that theorems can
state that it never reaches the caller. -/
inductive BackendOutcome (α : Type) where
  | responds (httpStatus : Nat) (data : α)
  | fetchFails (detail : String)
  | parseFails (detail : String)

/-- What a relay handler did: the URLs it requested, in order, and the
response it returned. -/
structure RelayTrace (α : Type) where
  requests : List String
  response : RelayResponse α

/-- Models `new URL(path, base).toString()` from the WHATWG URL library for an
absolute `path` (one starting with `/`): the result is `base`'s scheme and
authority with its path replaced by `path`. -/
def resolveUrl (path base : String) : String :=
  match base.splitOn "://" with
  | [scheme, rest] => scheme ++ "://" ++ ((rest.splitOn "/").headD rest) ++ path
  | _ => path

/-- Handler `POST /api/proxy` from `src/app/api/proxy/route.ts`.

The handler first parses the multipart form data (`formDataOk` is whether
`await request.formData()` succeeded; a failure is caught by the enclosing
`try`), then checks `process.env.BACKEND_URL` (`backendUrl?`), forwards the
body to `new URL('/api/v1/upload', backendUrl)` and returns the backend's
parsed JSON with the default 200 status; any thrown error is caught and
collapsed to `{ error: 'Error processing request' }` with status 500. -/
def proxyPOST {α : Type} (backendUrl? : Option String) (formDataOk : Bool)
    (backend : BackendOutcome α) : RelayTrace α :=
  if !formDataOk then
    ⟨[], ⟨500, .error "Error processing request"⟩⟩
  else
    match backendUrl? with
    | none => ⟨[], ⟨500, .error "Backend URL is not configured"⟩⟩
    | some backendUrl =>
      let uploadUrl := resolveUrl "/api/v1/upload" backendUrl
      match backend with
      | .responds _ data => ⟨[uploadUrl], ⟨200, .json data⟩⟩
      | .fetchFails _ => ⟨[uploadUrl], ⟨500, .error "Error processing request"⟩⟩
      | .parseFails _ => ⟨[uploadUrl], ⟨500, .error "Error processing request"⟩⟩

/-- Models the JavaScript idiom `searchParams.get(name) || default`: the
default is used when the parameter is absent or the empty string. -/
def jsOrDefault (v : Option String) (d : String) : String :=
  match v with
  | none => d
  | some s => if s = "" then d else s

/-- Handler `GET /api/documents` from `src/app/api/documents/route.ts`.

Reads `offset` and `limit` from the query string (defaulting to `'0'` and
`'100'`), checks `BACKEND_URL`, forwards to
`{backend}/api/v1/documents?offset=..&limit=..` and returns the parsed JSON
with the default 200 status; any thrown error is collapsed to
`{ error: 'Error fetching documents' }` with status 500. -/
def documentsGET {α : Type} (backendUrl? : Option String)
    (offsetParam limitParam : Option String) (backend : BackendOutcome α) :
    RelayTrace α :=
  let offset := jsOrDefault offsetParam "0"
  let limit := jsOrDefault limitParam "100"
  match backendUrl? with
  | none => ⟨[], ⟨500, .error "Backend URL is not configured"⟩⟩
  | some backendUrl =>
    let documentsUrl := resolveUrl "/api/v1/documents" backendUrl
    let urlWithParams := documentsUrl ++ "?offset=" ++ offset ++ "&limit=" ++ limit
    match backend with
    | .responds _ data => ⟨[urlWithParams], ⟨200, .json data⟩⟩
    | .fetchFails _ => ⟨[urlWithParams], ⟨500, .error "Error fetching documents"⟩⟩
    | .parseFails _ => ⟨[urlWithParams], ⟨500, .error "Error fetching documents"⟩⟩

/-! ## The local stub endpoint (`POST /api/pdf`) -/

/-- The `file` form entry of the stub endpoint: the browser `File`'s `name`
and `type` (the `type` is `none` when the entry is not a file / has no type
property, and may be the empty string, which JavaScript treats as falsy). -/
structure UploadedFile where
  name : String
  type : Option String
  deriving DecidableEq

/-- JavaScript truthiness of the optional string `file.type`: `undefined` and
`''` are falsy. -/
def jsTruthy : Option String → Bool
  | none => false
  | some s => s != ""

/-- Body of a `POST /api/pdf` response: `{ error: msg }` or
`{ document_id, status: 'success' }`. -/
inductive PdfBody where
  | err (msg : String)
  | success (document_id : String)
  deriving DecidableEq

/-- An HTTP response of the stub endpoint. -/
structure PdfResponse where
  status : Nat
  body : PdfBody
  deriving DecidableEq

/-- The `document_id` carried by a `POST /api/pdf` response body, if any. -/
def bodyDocId : PdfBody → Option String
  | .err _ => none
  | .success i => some i

/-- Handler `POST /api/pdf` from `src/app/api/pdf/route.ts` (second handler in
`src/app/api/proxy/route.ts`'s bundle).

`file?` is `formData.get('file')` (`none` when the field is missing) and
`documentId` is the value produced by `uuidv4()`, passed in explicitly since
identifier generation is the handler's only effect. -/
def pdfPOST (file? : Option UploadedFile) (documentId : String) : PdfResponse :=
  match file? with
  | none => ⟨400, .err "No file uploaded"⟩
  | some file =>
    if !jsTruthy file.type || file.type != some "application/pdf" then
      ⟨400, .err "Only PDF files are allowed"⟩
    else
      ⟨200, .success documentId⟩

/-! ## Findings renderer (`FindingsList`) -/

/-- Severity levels of a finding. -/
inductive Severity where
  | LOW | MEDIUM | HIGH | CRITICAL
  deriving DecidableEq

/-- The `Finding` interface.  `confidence` is a JavaScript float rendered
only for display; it is embedded as a rational. -/
structure Finding where
  type : String
  value : Option String
  location : Option Int
  confidence : Option Rat
  context : Option String
  matched_text : Option String
  category : Option String
  severity : Option Severity

/-- One step of the summary's `reduce`: the JavaScript statement
`acc[finding.type] = (acc[finding.type] || 0) + 1` on a string-keyed object,
embedded as an association list in key-insertion order (which is how
`Object.entries` enumerates string keys). -/
def bumpCount : List (String × Nat) → String → List (String × Nat)
  | [], t => [(t, 1)]
  | (k, n) :: rest, t =>
    if k = t then (k, n + 1) :: rest else (k, n) :: bumpCount rest t

/-- The summary's per-type count map from `FindingsList`:
`findings.reduce((acc, finding) => { acc[finding.type] = (acc[finding.type] || 0) + 1; return acc; }, {})`. -/
def summaryCounts (findings : List Finding) : List (String × Nat) :=
  findings.foldl (fun acc finding => bumpCount acc finding.type) []

/-- The displayed summary entries: `Object.entries(...).map(([type, count]) =>
`${type.toLowerCase()} (${count})`)`, kept as (label, count) pairs. -/
def summaryEntries (findings : List Finding) : List (String × Nat) :=
  (summaryCounts findings).map (fun p => (p.1.toLower, p.2))

/-- Count associated to key `t` in the summary map (0 when absent). -/
def lookupCount : List (String × Nat) → String → Nat
  | [], _ => 0
  | (k, n) :: rest, t => if k = t then n else lookupCount rest t

/-- A finding with only its `type` set, as produced by a backend that reports
bare types. -/
def mkFinding (t : String) : Finding :=
  ⟨t, none, none, none, none, none, none, none⟩

/-! ## Upload widget (`UploadSection`) -/

/-- A file chosen in the file picker: the browser `File`'s `name` and MIME
`type` (always a string on a `File`, possibly empty). -/
structure SelectedFile where
  name : String
  type : String
  deriving DecidableEq

/-- The `status` discriminator of the widget's `ApiResponse`. -/
inductive UploadStatus where
  | success | error
  deriving DecidableEq

/-- The subset of the `ApiResponse` interface the widget writes and the claims
read (the optional `analysis` payload is rendered but never constructed by the
widget itself, so it is not modelled). -/
structure ApiResponse where
  status : UploadStatus
  document_id : Option String
  message : Option String
  error : Option String
  deriving DecidableEq

/-- Local state of `UploadSection`: the retained file, the `uploading` flag
and the last response (also used for the validation error display). -/
structure UploadState where
  file : Option SelectedFile
  uploading : Bool
  response : Option ApiResponse
  deriving DecidableEq

/-- A request issued by the widget:
`fetch('/api/proxy', { method: 'POST', body: formData })` where the form data
holds the single retained file. -/
structure UploadRequest where
  url : String
  file : SelectedFile
  deriving DecidableEq

/-- The widget's validation failure value:
`{ status: 'error', error: 'Please select a valid PDF file' }`. -/
def validationError : ApiResponse :=
  ⟨.error, none, none, some "Please select a valid PDF file"⟩

/-- Function `handleFileChange` of `UploadSection`: `selectedFile?` is
`e.target.files?.[0]`.  The guard is
`if (selectedFile && selectedFile.type === 'application/pdf')`; the rejecting
branch clears the file and stores the validation error.  The handler performs
no fetch, so its request list is always empty. -/
def handleFileChange (s : UploadState) (selectedFile? : Option SelectedFile) :
    UploadState × List UploadRequest :=
  match selectedFile? with
  | some selectedFile =>
    if selectedFile.type = "application/pdf" then
      ({ s with file := some selectedFile, response := none }, [])
    else
      ({ s with file := none, response := some validationError }, [])
  | none => ({ s with file := none, response := some validationError }, [])

/-- Function `handleUpload` of `UploadSection`: `if (!file) return;` otherwise it posts
the retained file to `/api/proxy` and stores the parsed response `data` (the
`finally` block clears `uploading`). -/
def handleUpload (s : UploadState) (data : ApiResponse) :
    UploadState × List UploadRequest :=
  match s.file with
  | none => (s, [])
  | some file =>
    ({ s with uploading := false, response := some data }, [⟨"/api/proxy", file⟩])

/-! ## Document tables (`ProcessedFilesTable` variants) -/

/-- The `Document` listing record. -/
structure Document where
  document_id : String
  filename : String
  upload_timestamp : String
  content_length : Nat
  sensitive_info_count : Nat
  email_count : Nat
  ssn_count : Nat
  deriving DecidableEq

/-- A request to the listing endpoint `/api/documents?offset=..&limit=..`.
The offset is an `Int` because the source computes it with signed JavaScript
arithmetic (`Math.max(0, ...)`, `while (offset >= 0)`). -/
structure DocRequest where
  offset : Int
  limit : Nat
  deriving DecidableEq

/-- Parsed JSON of a listing response as consumed by the tables; the
`documents` field may be absent (`data.documents || []`). -/
structure FetchData where
  documents : Option (List Document)
  deriving DecidableEq

/-- Evaluation of `data.documents || []`. -/
def respDocs (data : FetchData) : List Document :=
  data.documents.getD []

/-- Outcome of one `fetch` to `/api/documents` inside a table, as seen by the
enclosing `try`: a parsed JSON body, or a failure (`!response.ok`, a network
error or a JSON parse error — all collapse into the `catch` branch).  The
`detail` string is the JavaScript error detail. -/
inductive FetchOutcome where
  | ok (data : FetchData)
  | fails (detail : String)

/-! ### The chunk-windowing table variant -/

/-- State of the windowing `ProcessedFilesTable`: the cached chunk
(`localDocuments`), pagination within it, the chunk index, the
more-chunks heuristic, the in-flight guard and the error banner.  The raw
`documents` response object is also stored (`setDocuments(data)`) though the
claims never read it. -/
structure TableState where
  documents : Option FetchData
  localDocuments : List Document
  currentPage : Nat
  pageSize : Nat
  currentChunk : Nat
  hasMoreDocuments : Bool
  loadingMore : Bool
  error : Option String
  deriving DecidableEq

/-- Function `fetchDocuments(chunkOffset = 0)` of the windowing table: requests
`/api/documents?offset=${chunkOffset}&limit=100`, wholesale replaces
`localDocuments` with the returned chunk, records the chunk index and sets
`hasMoreDocuments` to whether the chunk came back full; on failure it sets the
error banner and leaves the cache untouched. -/
def fetchDocuments (s : TableState) (chunkOffset : Nat) (outcome : FetchOutcome) :
    TableState × DocRequest :=
  let req : DocRequest := ⟨(chunkOffset : Int), 100⟩
  match outcome with
  | .ok data =>
    ({ s with documents := some data,
              localDocuments := respDocs data,
              currentChunk := chunkOffset / 100,
              hasMoreDocuments := (respDocs data).length == 100,
              error := none }, req)
  | .fails _ =>
    ({ s with error := some "Failed to fetch documents. Please try again." }, req)

/-- Requests issued by the windowing table's effect hook after a state
change: `useEffect(() => { fetchDocuments() }, [currentChunk])` re-runs
exactly when `currentChunk` changed, and its body requests chunk offset 0
(the parameter default). -/
def windowingEffectRequests (before after : TableState) : List DocRequest :=
  if after.currentChunk != before.currentChunk then [⟨0, 100⟩] else []

/-- Function `handlePageSizeChange` of the windowing table: store the new page size and
reset `currentPage` to 1.  It performs no fetch of its own. -/
def handlePageSizeChange (s : TableState) (newPageSize : Nat) : TableState :=
  { s with pageSize := newPageSize, currentPage := 1 }

/-- The rows currently rendered:
`localDocuments.slice((currentPage - 1) * pageSize, currentPage * pageSize)`. -/
def currentPageDocuments (s : TableState) : List Document :=
  (s.localDocuments.drop ((s.currentPage - 1) * s.pageSize)).take
    (s.currentPage * s.pageSize - (s.currentPage - 1) * s.pageSize)

/-- Result of the `while (offset >= 0)` probe loop inside `handleLastPage`:
the requests it issued in order, the `lastPageDocuments` it adopted (`[]` when
it aborted after an empty response), and the final value of the `offset`
variable. -/
structure ProbeOutcome where
  requests : List DocRequest
  found : List Document
  finalOffset : Int
  deriving DecidableEq

/-- The probe loop of `handleLastPage`.  `backend offset limit` is the
document list the listing endpoint returns for that request (request failures
abort the whole handler through its `catch` and issue no further requests, so
the oracle models the responding runs the claims quantify over).  The source
loop is unbounded, so the embedding takes explicit `fuel`; every theorem about
the loop is stated per iteration or under sufficient fuel. -/
def probeLoop (backend : Int → Nat → List Document) (pageSize : Nat) :
    Int → Nat → ProbeOutcome
  | offset, 0 => ⟨[], [], offset⟩
  | offset, fuel + 1 =>
    if offset < 0 then ⟨[], [], offset⟩
    else
      let documents := backend offset pageSize
      if documents.length = 0 then
        ⟨[⟨offset, pageSize⟩], [], offset⟩
      else if documents.length < pageSize then
        ⟨[⟨offset, pageSize⟩], documents, offset⟩
      else
        let rest := probeLoop backend pageSize (offset + 100) fuel
        ⟨⟨offset, pageSize⟩ :: rest.requests, rest.found, rest.finalOffset⟩

/-- The fallback offset of `handleLastPage`:
`Math.max(0, (currentChunk + 1) * 100 - pageSize)`. -/
def lastPageOffset (s : TableState) : Int :=
  max 0 (((s.currentChunk : Int) + 1) * 100 - (s.pageSize : Int))

/-- Function `handleLastPage` of the windowing table: guarded by `loadingMore`; probes
offsets starting at 1000; when the probe adopted nothing it falls back to the
last `pageSize` records of the current chunk; finally it installs the adopted
documents, resets `currentPage` to 1 and records `Math.floor(offset / 100)` as
the chunk index.  Returns the new state and all issued requests in order. -/
def handleLastPage (backend : Int → Nat → List Document) (s : TableState)
    (fuel : Nat) : TableState × List DocRequest :=
  if s.loadingMore then (s, [])
  else
    let probe := probeLoop backend s.pageSize 1000 fuel
    if probe.found.length = 0 then
      let offset := lastPageOffset s
      let documents := backend offset s.pageSize
      ({ s with localDocuments := documents, currentPage := 1,
                currentChunk := (offset / 100).toNat },
       probe.requests ++ [⟨offset, s.pageSize⟩])
    else
      ({ s with localDocuments := probe.found, currentPage := 1,
                currentChunk := (probe.finalOffset / 100).toNat },
       probe.requests)

/-! ### The simple total-count table variant -/

/-- State of the first `ProcessedFilesTable` variant, which trusts the
server-reported `total` and fetches exactly the displayed page. -/
structure SimpleTableState where
  documents : Option FetchData
  currentPage : Nat
  pageSize : Nat
  error : Option String
  deriving DecidableEq

/-- Function `handlePageSizeChange` of the simple variant: store the new page size and
reset `currentPage` to 1. -/
def simpleHandlePageSizeChange (s : SimpleTableState) (newPageSize : Nat) :
    SimpleTableState :=
  { s with pageSize := newPageSize, currentPage := 1 }

/-- The request issued by the simple variant's `fetchDocuments`:
`/api/documents?offset=${(currentPage - 1) * pageSize}&limit=${pageSize}`. -/
def simpleFetchRequest (s : SimpleTableState) : DocRequest :=
  ⟨((s.currentPage : Int) - 1) * (s.pageSize : Int), s.pageSize⟩

/-- Requests issued by the simple variant's effect hook after a state change:
`useEffect(() => { fetchDocuments() }, [currentPage, pageSize])` re-runs
exactly when one of its dependencies changed, and its body fetches the
displayed page. -/
def simpleEffectRequests (before after : SimpleTableState) : List DocRequest :=
  if after.currentPage != before.currentPage || after.pageSize != before.pageSize then
    [simpleFetchRequest after]
  else []

/-! ### Statement of the last-page probe behaviour, and concrete fixtures -/

/-- The behaviour ascribed to the last-page operation: the probe's first
request is offset 1000 with limit `pageSize`; a full response advances the
offset by 100 and probes again; a short non-empty response stops the probe,
which adopts its records; an empty response aborts the probe, after which the
handler falls back to one request at
`max 0 ((currentChunk + 1) * 100 - pageSize)` and adopts its records. -/
def LastPageProbeSpec (backend : Int → Nat → List Document) (s : TableState)
    (fuel : Nat) : Prop :=
  ((handleLastPage backend s fuel).2.head? = some ⟨1000, s.pageSize⟩)
  ∧ (∀ (offset : Int) (k : Nat), 0 ≤ offset →
      (backend offset s.pageSize).length = s.pageSize →
      probeLoop backend s.pageSize offset (k + 1) =
        ⟨⟨offset, s.pageSize⟩ ::
            (probeLoop backend s.pageSize (offset + 100) k).requests,
         (probeLoop backend s.pageSize (offset + 100) k).found,
         (probeLoop backend s.pageSize (offset + 100) k).finalOffset⟩)
  ∧ (∀ (offset : Int) (k : Nat), 0 ≤ offset →
      0 < (backend offset s.pageSize).length →
      (backend offset s.pageSize).length < s.pageSize →
      probeLoop backend s.pageSize offset (k + 1) =
        ⟨[⟨offset, s.pageSize⟩], backend offset s.pageSize, offset⟩)
  ∧ (∀ (offset : Int) (k : Nat), 0 ≤ offset →
      (backend offset s.pageSize).length = 0 →
      probeLoop backend s.pageSize offset (k + 1) =
        ⟨[⟨offset, s.pageSize⟩], [], offset⟩)
  ∧ ((probeLoop backend s.pageSize 1000 fuel).found ≠ [] →
      (handleLastPage backend s fuel).1.localDocuments =
          (probeLoop backend s.pageSize 1000 fuel).found
        ∧ (handleLastPage backend s fuel).2 =
          (probeLoop backend s.pageSize 1000 fuel).requests)
  ∧ ((probeLoop backend s.pageSize 1000 fuel).found = [] →
      (handleLastPage backend s fuel).2 =
          (probeLoop backend s.pageSize 1000 fuel).requests
            ++ [⟨lastPageOffset s, s.pageSize⟩]
        ∧ (handleLastPage backend s fuel).1.localDocuments =
          backend (lastPageOffset s) s.pageSize)

/-- A concrete windowing-table state: empty cache, page 1, page size 5,
chunk 0, not loading. -/
def demoTableState : TableState :=
  ⟨none, [], 1, 5, 0, false, false, none⟩

/-- A concrete listing backend holding no documents at all. -/
def demoBackend : Int → Nat → List Document :=
  fun _ _ => []

/-! ## Theorems -/

/-- Claim C4: for every `POST /api/proxy` with `BACKEND_URL` configured, the
relay issues exactly one request, to the URL formed by joining
`/api/v1/upload` onto `BACKEND_URL`, and on success it returns the backend's
parsed JSON body verbatim with HTTP status 200, whatever HTTP status the
backend itself used. -/
theorem proxyPOST_success_passthrough {α : Type} (backendUrl : String)
    (httpStatus : Nat) (data : α) :
    proxyPOST (some backendUrl) true (.responds httpStatus data) =
      ⟨[resolveUrl "/api/v1/upload" backendUrl], ⟨200, .json data⟩⟩ := rfl

/-- Claim C5: with `BACKEND_URL` absent either relay endpoint answers
HTTP 500 with the configuration-error object and contacts no backend; and
when the forwarded request or the JSON parsing fails, either relay answers
HTTP 500 with a fixed generic error envelope that is independent of the
failure detail. -/
theorem relay_error_handling {α : Type} :
    (∀ backend : BackendOutcome α,
      proxyPOST none true backend =
        ⟨[], ⟨500, .error "Backend URL is not configured"⟩⟩)
    ∧ (∀ (offsetParam limitParam : Option String) (backend : BackendOutcome α),
      documentsGET none offsetParam limitParam backend =
        ⟨[], ⟨500, .error "Backend URL is not configured"⟩⟩)
    ∧ (∀ backendUrl detail : String,
      (@proxyPOST α (some backendUrl) true (.fetchFails detail)).response =
          ⟨500, .error "Error processing request"⟩
        ∧ (@proxyPOST α (some backendUrl) true (.parseFails detail)).response =
          ⟨500, .error "Error processing request"⟩)
    ∧ (∀ (backendUrl detail : String) (offsetParam limitParam : Option String),
      (@documentsGET α (some backendUrl) offsetParam limitParam
            (.fetchFails detail)).response =
          ⟨500, .error "Error fetching documents"⟩
        ∧ (@documentsGET α (some backendUrl) offsetParam limitParam
            (.parseFails detail)).response =
          ⟨500, .error "Error fetching documents"⟩) :=
  ⟨fun _ => rfl, fun _ _ _ => rfl, fun _ _ => ⟨rfl, rfl⟩, fun _ _ _ _ => ⟨rfl, rfl⟩⟩

/-- Claim C10: `POST /api/pdf` answers 400 `No file uploaded` without a
`document_id` when the `file` field is missing; 400 `Only PDF files are
allowed` without a `document_id` when the file's type is missing or not
`application/pdf`; and a PDF-typed file alone gets
`{ document_id, status: 'success' }` carrying the freshly generated
identifier. -/
theorem pdfPOST_spec (documentId : String) :
    pdfPOST none documentId = ⟨400, .err "No file uploaded"⟩
    ∧ bodyDocId (pdfPOST none documentId).body = none
    ∧ (∀ file : UploadedFile,
        (!jsTruthy file.type || file.type != some "application/pdf") = true →
          pdfPOST (some file) documentId = ⟨400, .err "Only PDF files are allowed"⟩
          ∧ bodyDocId (pdfPOST (some file) documentId).body = none)
    ∧ (∀ file : UploadedFile, file.type = some "application/pdf" →
        pdfPOST (some file) documentId = ⟨200, .success documentId⟩) := by
  refine ⟨rfl, rfl, ?_, ?_⟩
  · intro file h
    constructor <;> simp [pdfPOST, h, bodyDocId]
  · intro file h
    obtain ⟨name, type⟩ := file
    cases h
    rfl

/-- Concrete instantiation of `pdfPOST_spec`: a plain-text file is rejected
with the 400 error body and a PDF-typed file gets the generated identifier
back with status 200. -/
theorem pdfPOST_spec_witness :
    (!jsTruthy (some "text/plain") || some "text/plain" != some "application/pdf") = true
    ∧ pdfPOST (some ⟨"notes.txt", some "text/plain"⟩) "id-1" =
        ⟨400, .err "Only PDF files are allowed"⟩
    ∧ pdfPOST (some ⟨"scan.pdf", some "application/pdf"⟩) "id-1" =
        ⟨200, .success "id-1"⟩ :=
  ⟨by decide,
   ((pdfPOST_spec "id-1").2.2.1 ⟨"notes.txt", some "text/plain"⟩ (by decide)).1,
   (pdfPOST_spec "id-1").2.2.2 ⟨"scan.pdf", some "application/pdf"⟩ rfl⟩

/-- Claim C2: every chunk fetch of the windowing table requests `limit=100`
whatever the displayed page size is, wholesale replaces the cached documents
with the returned chunk, and afterwards `hasMoreDocuments` holds exactly when
the returned chunk has 100 records. -/
theorem fetchDocuments_spec (s : TableState) (chunkOffset : Nat)
    (data : FetchData) :
    (∀ outcome, (fetchDocuments s chunkOffset outcome).2 =
        ⟨(chunkOffset : Int), 100⟩)
    ∧ (fetchDocuments s chunkOffset (.ok data)).1.localDocuments = respDocs data
    ∧ ((fetchDocuments s chunkOffset (.ok data)).1.hasMoreDocuments = true ↔
        (respDocs data).length = 100) := by
  refine ⟨fun outcome => ?_, rfl, ?_⟩
  · cases outcome <;> rfl
  · simp [fetchDocuments]

/-- One `bumpCount` step adds exactly one to the total of the counts. -/
theorem bumpCount_sum (acc : List (String × Nat)) (t : String) :
    ((bumpCount acc t).map Prod.snd).sum = (acc.map Prod.snd).sum + 1 := by
  induction acc with
  | nil => simp [bumpCount]
  | cons p rest ih =>
    obtain ⟨k, n⟩ := p
    by_cases h : k = t <;> simp [bumpCount, h, ih] <;> omega

/-- Folding `bumpCount` over a findings list adds its length to the total of
the counts. -/
theorem foldl_bumpCount_sum (findings : List Finding)
    (acc : List (String × Nat)) :
    ((findings.foldl (fun a f => bumpCount a f.type) acc).map Prod.snd).sum =
      (acc.map Prod.snd).sum + findings.length := by
  induction findings generalizing acc with
  | nil => simp
  | cons f rest ih => simp [ih, bumpCount_sum]; omega

/-- Claim C7: for a findings list with at least one finding, the per-type
counts of the summary sum to exactly the number of findings. -/
theorem summaryCounts_sum_eq_length (findings : List Finding)
    (h : findings ≠ []) :
    ((summaryCounts findings).map Prod.snd).sum = findings.length := by
  simpa [summaryCounts] using foldl_bumpCount_sum findings []

/-- Concrete instantiation of `summaryCounts_sum_eq_length` on a three-element
findings list. -/
theorem summaryCounts_sum_eq_length_witness :
    ([mkFinding "email", mkFinding "ssn", mkFinding "email"] : List Finding) ≠ []
    ∧ ((summaryCounts
          [mkFinding "email", mkFinding "ssn", mkFinding "email"]).map
        Prod.snd).sum = 3 :=
  ⟨by simp,
   summaryCounts_sum_eq_length
     [mkFinding "email", mkFinding "ssn", mkFinding "email"] (by simp)⟩

/-- Claim C8 counterexample: two findings whose types differ only in letter
case (`"EMAIL"` and `"email"`) are counted in two separate summary groups,
not one — only the displayed labels coincide after lowercasing. -/
theorem summaryCounts_case_sensitive_cex :
    (mkFinding "EMAIL").type ≠ (mkFinding "email").type
    ∧ (mkFinding "EMAIL").type.toLower = (mkFinding "email").type.toLower
    ∧ summaryCounts [mkFinding "EMAIL", mkFinding "email"] =
        [("EMAIL", 1), ("email", 1)]
    ∧ (summaryCounts [mkFinding "EMAIL", mkFinding "email"]).length ≠ 1 := by
  refine ⟨by decide, ?_, rfl, by decide⟩
  show String.map Char.toLower "EMAIL" = String.map Char.toLower "email"
  rw [String.map_eq, String.map_eq]
  decide

/-- Lemma that `bumpCount` on key `s` raises the count looked up at `t` by one exactly
when `s = t`, whatever the accumulator. -/
theorem bumpCount_lookupCount (acc : List (String × Nat)) (s t : String) :
    lookupCount (bumpCount acc s) t =
      lookupCount acc t + (if s = t then 1 else 0) := by
  induction acc with
  | nil => by_cases h : s = t <;> simp [bumpCount, lookupCount, h]
  | cons p rest ih =>
    obtain ⟨k, n⟩ := p
    by_cases hks : k = s
    · subst hks
      by_cases hkt : k = t
      · subst hkt
        simp [bumpCount, lookupCount]
      · simp [bumpCount, lookupCount, hkt]
    · by_cases hkt : k = t
      · subst hkt
        have hsk : ¬s = k := fun hh => hks hh.symm
        simp [bumpCount, lookupCount, hks, hsk]
      · simp [bumpCount, lookupCount, hks, hkt, ih]

/-- Folding `bumpCount` adds, at each key `t`, the number of findings whose
`type` is exactly `t`. -/
theorem foldl_bumpCount_lookupCount (findings : List Finding)
    (acc : List (String × Nat)) (t : String) :
    lookupCount (findings.foldl (fun a f => bumpCount a f.type) acc) t =
      lookupCount acc t + findings.countP (fun f => f.type == t) := by
  induction findings generalizing acc with
  | nil => simp
  | cons f rest ih =>
    simp only [List.foldl_cons, List.countP_cons]
    rw [ih, bumpCount_lookupCount]
    by_cases h : f.type = t <;> simp [h] <;> omega

/-- Claim C8 (amended): the summary aggregates counts per exact, case
sensitive type string — the count recorded under key `t` is the number of
findings whose `type` equals `t` verbatim — and only the displayed labels
are lowercased, so case-variant types give separate groups. -/
theorem summaryCounts_exact_type (findings : List Finding) (t : String) :
    lookupCount (summaryCounts findings) t =
      findings.countP (fun f => f.type == t)
    ∧ summaryEntries findings =
        (summaryCounts findings).map (fun p => (p.1.toLower, p.2)) :=
  ⟨by simpa [summaryCounts, lookupCount] using
      foldl_bumpCount_lookupCount findings [] t,
   rfl⟩

/-- Claim C6: a selection that is absent or not PDF-typed drives the upload
widget to the validation-error state with no retained file and no request;
moreover any file `handleFileChange` retains is PDF-typed, and `handleUpload`
issues its request only when a file is retained. -/
theorem uploadWidget_rejects_non_pdf (s : UploadState)
    (selectedFile? : Option SelectedFile)
    (h : ∀ f, selectedFile? = some f → f.type ≠ "application/pdf") :
    (handleFileChange s selectedFile?).1.response = some validationError
    ∧ (handleFileChange s selectedFile?).1.file = none
    ∧ (handleFileChange s selectedFile?).2 = []
    ∧ (∀ (s' : UploadState) (sel : Option SelectedFile) (f : SelectedFile),
        (handleFileChange s' sel).1.file = some f →
          f.type = "application/pdf")
    ∧ (∀ (s' : UploadState) (data : ApiResponse),
        (handleUpload s' data).2 ≠ [] → s'.file.isSome = true) := by
  have hmain : (handleFileChange s selectedFile?).1.response = some validationError
      ∧ (handleFileChange s selectedFile?).1.file = none
      ∧ (handleFileChange s selectedFile?).2 = [] := by
    cases selectedFile? with
    | none => exact ⟨rfl, rfl, rfl⟩
    | some f =>
      have hf := h f rfl
      refine ⟨?_, ?_, ?_⟩ <;> simp [handleFileChange, hf]
  refine ⟨hmain.1, hmain.2.1, hmain.2.2, ?_, ?_⟩
  · intro s' sel f hf
    cases sel with
    | none => simp [handleFileChange] at hf
    | some g =>
      by_cases hg : g.type = "application/pdf"
      · have hfile : (handleFileChange s' (some g)).1.file = some g := by
          simp [handleFileChange, hg]
        rw [hfile] at hf
        injection hf with h2
        exact h2 ▸ hg
      · simp [handleFileChange, hg] at hf
  · intro s' data hne
    cases hsf : s'.file with
    | none => simp [handleUpload, hsf] at hne
    | some f => simp [hsf]

/-- Concrete instantiation of `uploadWidget_rejects_non_pdf`: selecting a
plain-text file in the idle widget stores the validation error. -/
theorem uploadWidget_rejects_non_pdf_witness :
    (∀ f, (some ⟨"notes.txt", "text/plain"⟩ : Option SelectedFile) = some f →
        f.type ≠ "application/pdf")
    ∧ (handleFileChange ⟨none, false, none⟩
        (some ⟨"notes.txt", "text/plain"⟩)).1.response = some validationError :=
  ⟨fun f hf => by cases hf; decide,
   (uploadWidget_rejects_non_pdf ⟨none, false, none⟩
      (some ⟨"notes.txt", "text/plain"⟩)
      (fun f hf => by cases hf; decide)).1⟩

/-- Claim C3 counterexample: in the simple total-count table, changing the
page size from 10 to 25 resets the page to 1 but the effect hook on
`[currentPage, pageSize]` re-runs and fetches, so the page-size change does
by itself trigger a network request in that table. -/
theorem pageSizeChange_triggers_fetch_cex :
    (simpleHandlePageSizeChange ⟨none, 3, 10, none⟩ 25).currentPage = 1
    ∧ simpleEffectRequests ⟨none, 3, 10, none⟩
        (simpleHandlePageSizeChange ⟨none, 3, 10, none⟩ 25) = [⟨0, 25⟩] :=
  ⟨rfl, rfl⟩

/-- Claim C3 (amended): in the windowing table a page-size change resets
`currentPage` to 1, leaves the cached documents untouched — the rendered page
becomes the first `newPageSize` cached records — and triggers no fetch, since
the effect hook depends only on `currentChunk`; in the simple total-count
variant the page is likewise reset to 1, but an actual page-size change makes
that variant's effect hook issue a fetch. -/
theorem handlePageSizeChange_spec (s : TableState) (t : SimpleTableState)
    (newPageSize : Nat) (h : newPageSize ∈ [5, 10, 25, 50]) :
    (handlePageSizeChange s newPageSize).currentPage = 1
    ∧ (handlePageSizeChange s newPageSize).pageSize = newPageSize
    ∧ (handlePageSizeChange s newPageSize).localDocuments = s.localDocuments
    ∧ windowingEffectRequests s (handlePageSizeChange s newPageSize) = []
    ∧ currentPageDocuments (handlePageSizeChange s newPageSize) =
        s.localDocuments.take newPageSize
    ∧ (simpleHandlePageSizeChange t newPageSize).currentPage = 1
    ∧ (newPageSize ≠ t.pageSize →
        simpleEffectRequests t (simpleHandlePageSizeChange t newPageSize) =
          [simpleFetchRequest (simpleHandlePageSizeChange t newPageSize)]) := by
  refine ⟨rfl, rfl, rfl, ?_, ?_, rfl, ?_⟩
  · simp [windowingEffectRequests, handlePageSizeChange]
  · simp [currentPageDocuments, handlePageSizeChange]
  · intro hne
    have hbne : (newPageSize != t.pageSize) = true := by
      simpa [bne_iff_ne] using hne
    simp [simpleEffectRequests, simpleHandlePageSizeChange, hbne]

/-- Concrete instantiation of `handlePageSizeChange_spec`: switching to page
size 25 in both table variants, from page size 10. -/
theorem handlePageSizeChange_spec_witness :
    (25 ∈ [5, 10, 25, 50]) ∧ (25 : Nat) ≠ 10
    ∧ (handlePageSizeChange demoTableState 25).currentPage = 1
    ∧ simpleEffectRequests ⟨none, 2, 10, none⟩
        (simpleHandlePageSizeChange ⟨none, 2, 10, none⟩ 25) =
        [simpleFetchRequest (simpleHandlePageSizeChange ⟨none, 2, 10, none⟩ 25)] :=
  ⟨by decide, by decide,
   (handlePageSizeChange_spec demoTableState ⟨none, 2, 10, none⟩ 25 (by decide)).1,
   (handlePageSizeChange_spec demoTableState ⟨none, 2, 10, none⟩ 25
      (by decide)).2.2.2.2.2.2 (by decide)⟩

/-- Unfolding of one probe iteration when the `while (offset >= 0)` guard
holds. -/
theorem probeLoop_succ (backend : Int → Nat → List Document) (pageSize : Nat)
    (offset : Int) (k : Nat) (h1 : ¬offset < 0) :
    probeLoop backend pageSize offset (k + 1) =
      if (backend offset pageSize).length = 0 then
        ⟨[⟨offset, pageSize⟩], [], offset⟩
      else if (backend offset pageSize).length < pageSize then
        ⟨[⟨offset, pageSize⟩], backend offset pageSize, offset⟩
      else
        ⟨⟨offset, pageSize⟩ ::
            (probeLoop backend pageSize (offset + 100) k).requests,
         (probeLoop backend pageSize (offset + 100) k).found,
         (probeLoop backend pageSize (offset + 100) k).finalOffset⟩ := by
  rw [probeLoop, if_neg h1]

/-- A probe iteration at a nonnegative offset always issues its request at
that offset with limit `pageSize` first. -/
theorem probeLoop_head (backend : Int → Nat → List Document) (pageSize : Nat)
    (offset : Int) (k : Nat) (h0 : 0 ≤ offset) :
    (probeLoop backend pageSize offset (k + 1)).requests.head? =
      some ⟨offset, pageSize⟩ := by
  rw [probeLoop_succ backend pageSize offset k (by omega)]
  split
  · rfl
  · split <;> rfl

/-- Every request issued by the probe loop carries limit `pageSize`. -/
theorem probeLoop_limit_mem (backend : Int → Nat → List Document)
    (pageSize : Nat) (offset : Int) (fuel : Nat) (r : DocRequest)
    (hr : r ∈ (probeLoop backend pageSize offset fuel).requests) :
    r.limit = pageSize := by
  induction fuel generalizing offset with
  | zero => simp [probeLoop] at hr
  | succ k ih =>
    by_cases h1 : offset < 0
    · rw [probeLoop, if_pos h1] at hr
      simp at hr
    · rw [probeLoop_succ backend pageSize offset k h1] at hr
      split at hr
      · simp at hr
        subst hr
        rfl
      · split at hr
        · simp at hr
          subst hr
          rfl
        · simp at hr
          rcases hr with hr | hr
          · subst hr
            rfl
          · exact ih (offset + 100) hr

/-- Claim C1: the last-page operation probes starting at offset 1000 with
limit `pageSize`; a response of exactly `pageSize` records makes it advance
the offset by 100 and request again; a shorter non-empty response stops the
probe and its records are adopted as the last page; an empty response aborts
the probe, and the handler then falls back to one request at
`max 0 ((currentChunk + 1) * 100 - pageSize)` — the last `pageSize` records
of the currently cached chunk — adopting that response instead. -/
theorem handleLastPage_probe_spec (backend : Int → Nat → List Document)
    (s : TableState) (fuel : Nat) (hps : 0 < s.pageSize)
    (hload : s.loadingMore = false) (hfuel : 0 < fuel) :
    LastPageProbeSpec backend s fuel := by
  obtain ⟨m, rfl⟩ : ∃ m, fuel = m + 1 := ⟨fuel - 1, by omega⟩
  refine ⟨?_, ?_, ?_, ?_, ?_, ?_⟩
  · have hh := probeLoop_head backend s.pageSize 1000 m (by omega)
    have hcond : ¬(s.loadingMore = true) := by simp [hload]
    simp only [handleLastPage]
    rw [if_neg hcond]
    split
    · cases hreq : (probeLoop backend s.pageSize 1000 (m + 1)).requests with
      | nil => rw [hreq] at hh; simp at hh
      | cons a t =>
        rw [hreq] at hh
        simp at hh
        simp [hreq, hh]
    · exact hh
  · intro offset k h0 hlen
    rw [probeLoop_succ backend s.pageSize offset k (by omega)]
    rw [if_neg (by omega), if_neg (by omega)]
  · intro offset k h0 hpos hlt
    rw [probeLoop_succ backend s.pageSize offset k (by omega)]
    rw [if_neg (by omega), if_pos hlt]
  · intro offset k h0 hlen
    rw [probeLoop_succ backend s.pageSize offset k (by omega)]
    rw [if_pos hlen]
  · intro hne
    have hlen0 : ¬(probeLoop backend s.pageSize 1000 (m + 1)).found.length = 0 := by
      simpa [List.length_eq_zero] using hne
    refine ⟨?_, ?_⟩ <;> simp [handleLastPage, hload, hlen0]
  · intro hempty
    have hlen0 : (probeLoop backend s.pageSize 1000 (m + 1)).found.length = 0 := by
      simp [hempty]
    refine ⟨?_, ?_⟩ <;> simp [handleLastPage, hload, hlen0]

/-- Concrete instantiation of `handleLastPage_probe_spec` on the empty
backend with page size 5 and fuel 3. -/
theorem handleLastPage_probe_spec_witness :
    0 < demoTableState.pageSize ∧ demoTableState.loadingMore = false
    ∧ 0 < 3 ∧ LastPageProbeSpec demoBackend demoTableState 3 :=
  ⟨by decide, rfl, by decide,
   handleLastPage_probe_spec demoBackend demoTableState 3 (by decide) rfl
     (by decide)⟩

/-- Claim C9: with the page size one of the selectable values 5, 10, 25 or
50, no request issued by the last-page operation — probe requests or the
fallback request — carries a limit ≤ 0. -/
theorem handleLastPage_limits_positive (backend : Int → Nat → List Document)
    (s : TableState) (fuel : Nat) (r : DocRequest)
    (hps : s.pageSize ∈ [5, 10, 25, 50])
    (hr : r ∈ (handleLastPage backend s fuel).2) :
    0 < r.limit := by
  have hlim : r.limit = s.pageSize := by
    cases hLM : s.loadingMore with
    | true => simp [handleLastPage, hLM] at hr
    | false =>
      have hcond : ¬(s.loadingMore = true) := by simp [hLM]
      simp only [handleLastPage] at hr
      rw [if_neg hcond] at hr
      split at hr
      · have hr' : r ∈ (probeLoop backend s.pageSize 1000 fuel).requests
            ++ [(⟨lastPageOffset s, s.pageSize⟩ : DocRequest)] := hr
        rw [List.mem_append] at hr'
        rcases hr' with hmem | hmem
        · exact probeLoop_limit_mem backend s.pageSize 1000 fuel r hmem
        · simp at hmem
          subst hmem
          rfl
      · exact probeLoop_limit_mem backend s.pageSize 1000 fuel r hr
  rw [hlim]
  simp at hps
  rcases hps with h | h | h | h <;> omega

/-- Concrete instantiation of `handleLastPage_limits_positive`: on the empty
backend the operation issues the probe request at offset 1000 (then the
fallback at offset 95), and the probe request's limit is positive. -/
theorem handleLastPage_limits_positive_witness :
    demoTableState.pageSize ∈ [5, 10, 25, 50]
    ∧ (⟨1000, 5⟩ : DocRequest) ∈ (handleLastPage demoBackend demoTableState 1).2
    ∧ 0 < (⟨1000, 5⟩ : DocRequest).limit :=
  ⟨by decide, by decide,
   handleLastPage_limits_positive demoBackend demoTableState 1 ⟨1000, 5⟩
     (by decide) (by decide)⟩

end ThirdLawUI
